import Mathlib

/-!
Verification of the `vehicle-status-scan` inspection and booking domain.

This file is a shallow embedding, in Lean 4, of the core domain logic of the
vehicle inspection system: checkpoint scores and safety results
(`domain/value_objects`), the per-vehicle-type safety policies
(`domain/entities/vehicle.py`), the `Inspection` aggregate
(`domain/entities/inspection.py`), the `Booking` aggregate
(`domain/entities/booking.py`), time slots and the slot generator
(`domain/value_objects/time_slot.py`, `application/services/booking_service.py`),
the in-memory booking repository
(`infrastructure/repositories/memory_repositories.py`) and the relevant parts of
the inspection and booking application services.

Modelling conventions:
- Python strings that the code computes on character-by-character (license
  plates) are embedded as `List Char`; strings that only flow through
  (observations, error messages) are embedded as `String`.
- Python code that can raise is embedded as functions into `Except String`;
  raising is returning `Except.error` with the message from the source.
  A raised exception aborts the operation, so an `Except.error` result means
  the caller's state is unchanged.
- Python `int` is embedded as `Int`; counts are `Nat` where the source can
  only produce non-negative values, with casts where they meet `Int` fields.
- `uuid4()` identities are modelled as `Nat` ids; wall-clock timestamps
  (`created_at` / `updated_at`, set from `datetime.utcnow()`) carry no domain
  logic and are omitted from the state.
-/

namespace VehicleScan

/-! ## Python string primitives -/

/-- Python `str.strip()` on a character list: drop whitespace from both ends. -/
def pyStrip (s : List Char) : List Char :=
  ((s.dropWhile Char.isWhitespace).reverse.dropWhile Char.isWhitespace).reverse

/-- Python `str.strip()` on a `String`, computed on the character list. -/
def pyStripS (s : String) : String :=
  String.mk (pyStrip s.data)

/-- Python `str.upper()` on a character list (ASCII letters, as `Char.toUpper`). -/
def pyUpper (s : List Char) : List Char :=
  s.map Char.toUpper

/-- Python `str.replace(c, "")` for a single-character pattern: remove every
occurrence of `c`. -/
def removeAll (c : Char) (s : List Char) : List Char :=
  s.filter (fun a => a != c)

/-- Success indicator for `Except` results. -/
def Except.isOk {ε α : Type} : Except ε α → Bool
  | Except.ok _ => true
  | Except.error _ => false

instance {ε α : Type} [DecidableEq ε] [DecidableEq α] :
    DecidableEq (Except ε α) := fun x y =>
  match x, y with
  | Except.error a, Except.error b =>
    if h : a = b then Decidable.isTrue (by rw [h])
    else Decidable.isFalse (fun he => h (Except.error.inj he))
  | Except.ok a, Except.ok b =>
    if h : a = b then Decidable.isTrue (by rw [h])
    else Decidable.isFalse (fun he => h (Except.ok.inj he))
  | Except.error _, Except.ok _ => Decidable.isFalse (fun he => Except.noConfusion he)
  | Except.ok _, Except.error _ => Decidable.isFalse (fun he => Except.noConfusion he)

/-! ## Checkpoint catalog (`domain/value_objects/checkpoint_types.py`) -/

/-- The fixed 8-member checkpoint enumeration `CheckpointType`. -/
inductive CheckpointType where
  | braking_system
  | steering_system
  | suspension_system
  | tires
  | lighting_system
  | gas_emissions
  | electrical_system
  | body_structure
deriving DecidableEq, Repr

/-- The `.value` string of each `CheckpointType` enum member. -/
def CheckpointType.value : CheckpointType → String
  | .braking_system => "braking_system"
  | .steering_system => "steering_system"
  | .suspension_system => "suspension_system"
  | .tires => "tires"
  | .lighting_system => "lighting_system"
  | .gas_emissions => "gas_emissions"
  | .electrical_system => "electrical_system"
  | .body_structure => "body_structure"

/-! ## Checkpoint score (`domain/value_objects/checkpoint_score.py`) -/

/-- The frozen dataclass `CheckpointScore`. -/
structure CheckpointScore where
  checkpoint_type : CheckpointType
  score : Int
  notes : String
deriving DecidableEq, Repr

/-- The `__post_init__` validation of `CheckpointScore`: the score must be an
integer in `[1, 10]` (the `isinstance` check is enforced by typing here). -/
def mkCheckpointScore (checkpoint_type : CheckpointType) (score : Int)
    (notes : String) : Except String CheckpointScore :=
  if ¬ (1 ≤ score ∧ score ≤ 10) then
    Except.error ("Score must be between 1 and 10 inclusive")
  else
    Except.ok ⟨checkpoint_type, score, notes⟩

/-- A `CheckpointScore` value that satisfies its `__post_init__` invariant,
i.e. one that Python construction can actually produce. -/
def CheckpointScore.valid (s : CheckpointScore) : Bool :=
  decide (1 ≤ s.score) && decide (s.score ≤ 10)

/-- Property `CheckpointScore.is_critical_failure`: score strictly below 5. -/
def CheckpointScore.is_critical_failure (s : CheckpointScore) : Bool :=
  decide (s.score < 5)

/-! ## Safety result (`domain/value_objects/safety_result.py`) -/

/-- The frozen dataclass `SafetyResult`. -/
structure SafetyResult where
  is_safe : Bool
  total_score : Int
  max_score : Int
  requires_reinspection : Bool
  observation : String
deriving DecidableEq, Repr

/-- The `__post_init__` validation of `SafetyResult`:
`0 ≤ total_score`, `0 ≤ max_score`, `total_score ≤ max_score`. -/
def mkSafetyResult (is_safe : Bool) (total_score max_score : Int)
    (requires_reinspection : Bool) (observation : String) :
    Except String SafetyResult :=
  if total_score < 0 then
    Except.error ("Total score cannot be negative")
  else if max_score < 0 then
    Except.error ("Max score cannot be negative")
  else if total_score > max_score then
    Except.error ("Total score cannot exceed maximum score")
  else
    Except.ok ⟨is_safe, total_score, max_score, requires_reinspection, observation⟩

/-! ## Vehicle safety policies (`domain/entities/vehicle.py`) -/

/-- The `VehicleType` enumeration. -/
inductive VehicleType where
  | car
  | motorcycle
deriving DecidableEq, Repr

/-- The `.value` string of each `VehicleType` member. -/
def VehicleType.value : VehicleType → String
  | .car => "car"
  | .motorcycle => "motorcycle"

/-- `Car.get_required_checkpoints`: the 8 required checkpoints, in source order. -/
def Car.get_required_checkpoints : List CheckpointType :=
  [CheckpointType.braking_system,
   CheckpointType.steering_system,
   CheckpointType.suspension_system,
   CheckpointType.tires,
   CheckpointType.lighting_system,
   CheckpointType.gas_emissions,
   CheckpointType.electrical_system,
   CheckpointType.body_structure]

/-- `Motorcycle.get_required_checkpoints`: identical list in the source. -/
def Motorcycle.get_required_checkpoints : List CheckpointType :=
  [CheckpointType.braking_system,
   CheckpointType.steering_system,
   CheckpointType.suspension_system,
   CheckpointType.tires,
   CheckpointType.lighting_system,
   CheckpointType.gas_emissions,
   CheckpointType.electrical_system,
   CheckpointType.body_structure]

/-- `Car.calculate_safety`. The trailing `SafetyResult(...)` construction runs
`__post_init__`, which can raise, hence the `Except` result. -/
def Car.calculate_safety (scores : List CheckpointScore) :
    Except String SafetyResult :=
  let total_score : Int := (scores.map (fun s => s.score)).sum
  let max_possible_score : Int := (Car.get_required_checkpoints.length : Int) * 10
  let critical_failures := scores.filter (fun s => decide (s.score < 5))
  let is_safe := decide (64 ≤ total_score) && critical_failures.isEmpty
  let requires_reinspection := decide (total_score < 32) || !critical_failures.isEmpty
  let observation :=
    if requires_reinspection then
      let withCritical :=
        if !critical_failures.isEmpty then
          let critical_items := critical_failures.map
            (fun failure => failure.checkpoint_type.value ++ (": ")
              ++ toString failure.score ++ ("/10"))
          ("Critical failures in: ") ++ String.intercalate (", ") critical_items ++ (". ")
        else ("")
      let withTotal :=
        if total_score < 32 then
          withCritical ++ ("Total score too low: ") ++ toString total_score
            ++ ("/") ++ toString max_possible_score ++ (". ")
        else withCritical
      withTotal ++ ("Vehicle requires re-inspection before approval.")
    else ("")
  mkSafetyResult is_safe total_score max_possible_score requires_reinspection
    (pyStripS observation)

/-- `Motorcycle.calculate_safety`: same policy, motorcycle closing sentence. -/
def Motorcycle.calculate_safety (scores : List CheckpointScore) :
    Except String SafetyResult :=
  let total_score : Int := (scores.map (fun s => s.score)).sum
  let max_possible_score : Int := (Motorcycle.get_required_checkpoints.length : Int) * 10
  let critical_failures := scores.filter (fun s => decide (s.score < 5))
  let is_safe := decide (64 ≤ total_score) && critical_failures.isEmpty
  let requires_reinspection := decide (total_score < 32) || !critical_failures.isEmpty
  let observation :=
    if requires_reinspection then
      let withCritical :=
        if !critical_failures.isEmpty then
          let critical_items := critical_failures.map
            (fun failure => failure.checkpoint_type.value ++ (": ")
              ++ toString failure.score ++ ("/10"))
          ("Critical failures in: ") ++ String.intercalate (", ") critical_items ++ (". ")
        else ("")
      let withTotal :=
        if total_score < 32 then
          withCritical ++ ("Total score too low: ") ++ toString total_score
            ++ ("/") ++ toString max_possible_score ++ (". ")
        else withCritical
      withTotal ++ ("Motorcycle requires re-inspection before approval.")
    else ("")
  mkSafetyResult is_safe total_score max_possible_score requires_reinspection
    (pyStripS observation)

/-! ## Inspection aggregate (`domain/entities/inspection.py`) -/

/-- The `InspectionStatus` enumeration: DRAFT and COMPLETED. -/
inductive InspectionStatus where
  | draft
  | completed
deriving DecidableEq, Repr

/-- The `Inspection` entity's state. `id`, `created_at` and `updated_at`
(generated uuid / wall-clock timestamps) carry no domain logic and are not
modelled; `inspector_id` is a `Nat` id. -/
structure Inspection where
  license_plate : List Char
  vehicle_type : VehicleType
  inspector_id : Nat
  checkpoint_scores : List CheckpointScore
  observations : String
  status : InspectionStatus
deriving DecidableEq, Repr

/-- `Inspection._get_required_checkpoints`: the source method ignores its
instance and returns the same 8 checkpoints for every vehicle type. -/
def Inspection.required_checkpoints : List CheckpointType :=
  [CheckpointType.braking_system,
   CheckpointType.steering_system,
   CheckpointType.suspension_system,
   CheckpointType.tires,
   CheckpointType.lighting_system,
   CheckpointType.gas_emissions,
   CheckpointType.electrical_system,
   CheckpointType.body_structure]

/-- `Inspection._validate_checkpoint_scores` applied to a score list: no two
scores may share a checkpoint type, and every type must be in the required set
for the vehicle type. Raising is modelled as `Except.error`. -/
def Inspection.validate_checkpoint_scores (vehicle_type : VehicleType)
    (scores : List CheckpointScore) : Except String Unit :=
  let checkpoint_types := scores.map (fun s => s.checkpoint_type)
  if ¬ checkpoint_types.Nodup then
    Except.error ("Duplicate checkpoint types found in scores")
  else
    match scores.find? (fun s => !(Inspection.required_checkpoints.contains s.checkpoint_type)) with
    | some s =>
        Except.error (("Checkpoint ") ++ s.checkpoint_type.value
          ++ (" is not valid for vehicle type ") ++ vehicle_type.value)
    | none => Except.ok ()

/-- `Inspection.__init__`: validates a non-empty license plate, stores the
plate stripped and uppercased, strips the observations, and re-validates the
checkpoint scores (the `isinstance` checks are enforced by typing here). -/
def mkInspection (license_plate : List Char) (vehicle_type : VehicleType)
    (inspector_id : Nat) (checkpoint_scores : List CheckpointScore)
    (observations : String) (status : InspectionStatus) :
    Except String Inspection :=
  if pyStrip license_plate = [] then
    Except.error ("License plate cannot be empty")
  else
    match Inspection.validate_checkpoint_scores vehicle_type checkpoint_scores with
    | Except.error e => Except.error e
    | Except.ok _ =>
        Except.ok ⟨pyUpper (pyStrip license_plate), vehicle_type, inspector_id,
          checkpoint_scores, pyStripS observations, status⟩

/-- `Inspection._has_all_required_checkpoints`: the required set is a subset of
the scored checkpoint types. -/
def Inspection.has_all_required_checkpoints (i : Inspection) : Bool :=
  Inspection.required_checkpoints.all
    (fun cp => i.checkpoint_scores.any (fun s => s.checkpoint_type == cp))

/-- `Inspection._get_missing_checkpoints`: the `.value` names of the required
checkpoints that have no score. The source lists the elements of the set
difference `required - scored`; this embedding takes them in required-list
order, a canonical iteration order of that set. -/
def Inspection.get_missing_checkpoints (i : Inspection) : List String :=
  (Inspection.required_checkpoints.filter
    (fun cp => !(i.checkpoint_scores.any (fun s => s.checkpoint_type == cp)))).map
    CheckpointType.value

/-- `Inspection.update_checkpoint_scores`. The source assigns the new list and
then re-runs `_validate_checkpoint_scores`; every theorem below about this
operation concerns either the completed-status guard (hit before the
assignment) or the success path, so the `Except` embedding is adequate. -/
def Inspection.update_checkpoint_scores (i : Inspection)
    (scores : List CheckpointScore) : Except String Inspection :=
  if i.status == InspectionStatus.completed then
    Except.error ("Cannot update scores for completed inspection")
  else
    let new_scores := scores
    match Inspection.validate_checkpoint_scores i.vehicle_type new_scores with
    | Except.error e => Except.error e
    | Except.ok _ => Except.ok { i with checkpoint_scores := new_scores }

/-- `Inspection.add_checkpoint_score`: upsert of a single score — any prior
score for the same checkpoint type is removed, then the new score is appended. -/
def Inspection.add_checkpoint_score (i : Inspection) (score : CheckpointScore) :
    Except String Inspection :=
  if i.status == InspectionStatus.completed then
    Except.error ("Cannot update scores for completed inspection")
  else
    let remaining := i.checkpoint_scores.filter
      (fun s => !(s.checkpoint_type == score.checkpoint_type))
    Except.ok { i with checkpoint_scores := remaining ++ [score] }

/-- `Inspection.update_observations`: DRAFT only; trims and stores. -/
def Inspection.update_observations (i : Inspection) (observations : String) :
    Except String Inspection :=
  if i.status == InspectionStatus.completed then
    Except.error ("Cannot update observations for completed inspection")
  else
    Except.ok { i with observations := pyStripS observations }

/-- `Inspection.complete_inspection`: fails on an already-completed inspection,
fails naming the missing checkpoints when the required set is not fully scored,
otherwise optionally overwrites the observations and flips the status to
COMPLETED. -/
def Inspection.complete_inspection (i : Inspection)
    (final_observations : Option String) : Except String Inspection :=
  if i.status == InspectionStatus.completed then
    Except.error ("Inspection is already completed")
  else if !i.has_all_required_checkpoints then
    Except.error (("Cannot complete inspection. Missing scores for: ")
      ++ String.intercalate (", ") i.get_missing_checkpoints)
  else
    let obs := match final_observations with
      | some o => pyStripS o
      | none => i.observations
    Except.ok { i with observations := obs, status := InspectionStatus.completed }

/-! ## Booking aggregate (`domain/entities/booking.py`) -/

/-- The `BookingStatus` enumeration. -/
inductive BookingStatus where
  | pending
  | confirmed
  | completed
  | cancelled
deriving DecidableEq, Repr

/-- A calendar instant: the `.date()` part as an ordinal day number and the
`.time()` part as minutes of the day, mirroring how the source compares
`datetime` values componentwise. -/
structure DateTime where
  day : Nat
  minutes : Nat
deriving DecidableEq, Repr

/-- Python `datetime` order `a <= b`, lexicographic on (date, time). -/
def DateTime.ble (a b : DateTime) : Bool :=
  decide (a.day < b.day) || (a.day == b.day && decide (a.minutes ≤ b.minutes))

/-- The `Booking` entity's state; `created_at`/`updated_at` timestamps are not
modelled and `uuid4` ids are `Nat`. -/
structure Booking where
  license_plate : List Char
  appointment_date : DateTime
  user_id : Nat
  id : Nat
  status : BookingStatus
deriving DecidableEq, Repr

/-- `Booking.confirm`: only PENDING bookings can be confirmed. -/
def Booking.confirm (b : Booking) : Except String Booking :=
  if b.status != BookingStatus.pending then
    Except.error ("Only pending bookings can be confirmed")
  else
    Except.ok { b with status := BookingStatus.confirmed }

/-- `Booking.cancel`: fails from COMPLETED or CANCELLED. -/
def Booking.cancel (b : Booking) : Except String Booking :=
  if b.status == BookingStatus.completed || b.status == BookingStatus.cancelled then
    Except.error ("Cannot cancel completed or already cancelled bookings")
  else
    Except.ok { b with status := BookingStatus.cancelled }

/-- `Booking.complete`: only CONFIRMED bookings can be completed. -/
def Booking.complete (b : Booking) : Except String Booking :=
  if b.status != BookingStatus.confirmed then
    Except.error ("Only confirmed bookings can be completed")
  else
    Except.ok { b with status := BookingStatus.completed }

/-- One successful transition of the booking state machine: a `confirm`,
`cancel` or `complete` call that does not raise. -/
inductive BookingStep : Booking → Booking → Prop where
  | confirm {b b' : Booking} : b.confirm = Except.ok b' → BookingStep b b'
  | cancel {b b' : Booking} : b.cancel = Except.ok b' → BookingStep b b'
  | complete {b b' : Booking} : b.complete = Except.ok b' → BookingStep b b'

/-! ## Time slots (`domain/value_objects/time_slot.py`) -/

/-- The frozen dataclass `TimeSlot`. Start and end times are minutes of the
day; the `date` field is the full `datetime` the source stores there. -/
structure TimeSlot where
  date : DateTime
  start_time : Nat
  end_time : Nat
  is_available : Bool
  max_bookings : Int
  current_bookings : Int
deriving DecidableEq, Repr

/-- The `__post_init__` validation of `TimeSlot`. -/
def mkTimeSlot (date : DateTime) (start_time end_time : Nat)
    (is_available : Bool) (max_bookings current_bookings : Int) :
    Except String TimeSlot :=
  if start_time ≥ end_time then
    Except.error ("Start time must be before end time")
  else if current_bookings < 0 then
    Except.error ("Current bookings cannot be negative")
  else if max_bookings < 1 then
    Except.error ("Max bookings must be at least 1")
  else if current_bookings > max_bookings then
    Except.error ("Current bookings cannot exceed max bookings")
  else
    Except.ok ⟨date, start_time, end_time, is_available, max_bookings, current_bookings⟩

/-- The invariant `__post_init__` guarantees for every constructed `TimeSlot`. -/
def TimeSlot.Wf (s : TimeSlot) : Prop :=
  s.start_time < s.end_time ∧ 0 ≤ s.current_bookings ∧
    1 ≤ s.max_bookings ∧ s.current_bookings ≤ s.max_bookings

/-- Property `TimeSlot.is_fully_booked`. -/
def TimeSlot.is_fully_booked (s : TimeSlot) : Bool :=
  decide (s.current_bookings ≥ s.max_bookings)

/-- `TimeSlot.with_booking`: a new slot with one additional booking; the new
slot's constructor re-runs `__post_init__`. -/
def TimeSlot.with_booking (s : TimeSlot) : Except String TimeSlot :=
  if s.is_fully_booked then
    Except.error ("Cannot book a fully booked time slot")
  else
    mkTimeSlot s.date s.start_time s.end_time
      (decide (s.current_bookings + 1 < s.max_bookings))
      s.max_bookings (s.current_bookings + 1)

/-- `TimeSlot.without_booking`: a new slot with one less booking and
`is_available` unconditionally `True`. -/
def TimeSlot.without_booking (s : TimeSlot) : Except String TimeSlot :=
  if s.current_bookings == 0 then
    Except.error ("Cannot remove booking from empty time slot")
  else
    mkTimeSlot s.date s.start_time s.end_time true
      s.max_bookings (s.current_bookings - 1)

/-! ## Slot generator (`application/services/booking_service.py`) -/

/-- The body of `TimeSlotGenerator.generate_slots_for_date`'s `while` loop.
Each iteration at `current_minutes < end_minutes` computes the slot end by
`datetime` arithmetic (hence the `% 1440` when the clock wraps), emits a slot
only when its end does not exceed the working hours, and advances by the slot
duration. The `fuel` argument bounds the number of iterations modelled; the
theorems below only instantiate configurations whose loop terminates well
within it. -/
def generateSlotsLoop (target_date : Nat) (slot_duration_minutes end_minutes : Nat) :
    Nat → Nat → Except String (List TimeSlot)
  | 0, _ => Except.ok []
  | Nat.succ fuel, current_minutes =>
    if current_minutes < end_minutes then
      let slot_end_minutes := (current_minutes + slot_duration_minutes) % 1440
      if slot_end_minutes ≤ end_minutes then
        match mkTimeSlot ⟨target_date, current_minutes⟩ current_minutes
            slot_end_minutes true 1 0 with
        | Except.error e => Except.error e
        | Except.ok slot =>
          match generateSlotsLoop target_date slot_duration_minutes end_minutes
              fuel ((current_minutes + slot_duration_minutes) % 1440) with
          | Except.error e => Except.error e
          | Except.ok slots => Except.ok (slot :: slots)
      else
        generateSlotsLoop target_date slot_duration_minutes end_minutes
          fuel ((current_minutes + slot_duration_minutes) % 1440)
    else Except.ok []

/-- `TimeSlotGenerator.generate_slots_for_date` for a generator configured with
`start_hour`, `end_hour` and `slot_duration_minutes`. -/
def TimeSlotGenerator.generate_slots_for_date (start_hour end_hour
    slot_duration_minutes : Nat) (target_date : Nat) :
    Except String (List TimeSlot) :=
  generateSlotsLoop target_date slot_duration_minutes (end_hour * 60)
    1440 (start_hour * 60)

/-! ## In-memory booking repository
(`infrastructure/repositories/memory_repositories.py`) -/

/-- The state of `InMemoryBookingRepository`: the stored bookings (a dict keyed
by generated id, here a list with distinct ids) and the pre-generated base time
slots per date (`_create_default_time_slots` builds 30 days of them; the table
is kept abstract here and the theorems quantify over it). -/
structure InMemoryBookingRepository where
  bookings : List Booking
  time_slot_table : List (Nat × List TimeSlot)
deriving Repr

/-- The booking count used by `find_available_slots`: bookings whose
appointment matches the slot's exact date and start time and whose status is
PENDING or CONFIRMED. -/
def InMemoryBookingRepository.booked_count (repo : InMemoryBookingRepository)
    (target_date : Nat) (slot_start : Nat) : Nat :=
  repo.bookings.countP (fun booking =>
    booking.appointment_date.day == target_date &&
    booking.appointment_date.minutes == slot_start &&
    (booking.status == BookingStatus.pending ||
      booking.status == BookingStatus.confirmed))

/-- One iteration of `find_available_slots`'s loop: rebuild the slot with the
live booking count; `TimeSlot(...)` re-runs `__post_init__`, which raises when
the count exceeds the slot capacity. -/
def InMemoryBookingRepository.update_slot (repo : InMemoryBookingRepository)
    (target_date : Nat) (slot : TimeSlot) : Except String TimeSlot :=
  let booked_count : Int := (repo.booked_count target_date slot.start_time : Int)
  mkTimeSlot slot.date slot.start_time slot.end_time
    (decide (booked_count < slot.max_bookings)) slot.max_bookings booked_count

/-- The slot-updating loop of `find_available_slots` over the base slots. -/
def InMemoryBookingRepository.update_slots (repo : InMemoryBookingRepository)
    (target_date : Nat) : List TimeSlot → Except String (List TimeSlot)
  | [] => Except.ok []
  | slot :: rest =>
    match repo.update_slot target_date slot with
    | Except.error e => Except.error e
    | Except.ok updated =>
      match repo.update_slots target_date rest with
      | Except.error e => Except.error e
      | Except.ok updatedRest => Except.ok (updated :: updatedRest)

/-- `InMemoryBookingRepository.find_available_slots`: empty for a date outside
the table, otherwise every base slot refreshed with its live booking count. -/
def InMemoryBookingRepository.find_available_slots
    (repo : InMemoryBookingRepository) (target_date : Nat) :
    Except String (List TimeSlot) :=
  match repo.time_slot_table.lookup target_date with
  | none => Except.ok []
  | some base_slots => repo.update_slots target_date base_slots

/-- `InMemoryBookingRepository.is_slot_available`: some refreshed slot for the
date starts at the requested time and is available. -/
def InMemoryBookingRepository.is_slot_available (repo : InMemoryBookingRepository)
    (appointment_date : DateTime) : Except String Bool :=
  match repo.find_available_slots appointment_date.day with
  | Except.error e => Except.error e
  | Except.ok slots =>
    Except.ok (slots.any (fun slot =>
      slot.start_time == appointment_date.minutes && slot.is_available))

/-! ## Booking service (`application/services/booking_service.py`) -/

/-- `LicensePlateValidator.validate`: non-empty, and after strip+uppercase the
plate matches the regex `[A-Z0-9]` with length 3 to 8. -/
def LicensePlateValidator.validate (license_plate : List Char) : Bool :=
  if license_plate.isEmpty then false
  else
    let plate := pyUpper (pyStrip license_plate)
    decide (3 ≤ plate.length) && decide (plate.length ≤ 8) &&
      plate.all (fun c => decide (('A' ≤ c ∧ c ≤ 'Z') ∨ ('0' ≤ c ∧ c ≤ '9')))

/-- `LicensePlateValidator.normalize`: strip and uppercase. -/
def LicensePlateValidator.normalize (license_plate : List Char) : List Char :=
  pyUpper (pyStrip license_plate)

/-- The state `BookingService.request_appointment` reads and writes: the
booking repository, the vehicle repository (only the stored license plates
matter here), the known user ids, the current wall-clock instant, and the next
fresh booking id. -/
structure BookingServiceState where
  booking_repository : InMemoryBookingRepository
  vehicle_plates : List (List Char)
  user_ids : List Nat
  now : DateTime
  next_booking_id : Nat
deriving Repr

/-- `BookingService.request_appointment`: validate the plate format, the user,
the slot availability and the future date, lazily create a vehicle record, then
create and save a PENDING booking. An `Except.error` result models a raised
exception, and none of the guarded steps before the save mutate anything, so an
error leaves the state unchanged. -/
def BookingService.request_appointment (st : BookingServiceState)
    (license_plate : List Char) (appointment_date : DateTime) (user_id : Nat) :
    Except String (Booking × BookingServiceState) :=
  if !LicensePlateValidator.validate license_plate then
    Except.error (("Invalid license plate format: ") ++ String.mk license_plate)
  else
    let normalized_plate := LicensePlateValidator.normalize license_plate
    if !st.user_ids.contains user_id then
      Except.error (("User not found: ") ++ toString user_id)
    else
      match st.booking_repository.is_slot_available appointment_date with
      | Except.error e => Except.error e
      | Except.ok avail =>
        if !avail then
          Except.error ("Selected time slot is not available")
        else if appointment_date.ble st.now then
          Except.error ("Appointment must be scheduled for a future date")
        else
          let st1 :=
            if st.vehicle_plates.contains normalized_plate then st
            else { st with vehicle_plates := normalized_plate :: st.vehicle_plates }
          let booking : Booking :=
            ⟨normalized_plate, appointment_date, user_id, st1.next_booking_id,
              BookingStatus.pending⟩
          let st2 := { st1 with
            booking_repository := { st1.booking_repository with
              bookings := booking :: st1.booking_repository.bookings },
            next_booking_id := st1.next_booking_id + 1 }
          Except.ok (booking, st2)

/-! ## Inspector (`domain/entities/inspector.py`) -/

/-- The `InspectorStatus` enumeration. -/
inductive InspectorStatus where
  | active
  | inactive
  | suspended
deriving DecidableEq, Repr

/-- The `Inspector` entity; only the fields the claims exercise are modelled
(identity and contact fields carry no domain logic for them). -/
structure Inspector where
  status : InspectorStatus
deriving DecidableEq, Repr

/-- `Inspector.is_active`. -/
def Inspector.is_active (i : Inspector) : Bool :=
  i.status == InspectorStatus.active

/-- `Inspector.can_perform_inspections`: delegates to `is_active`. -/
def Inspector.can_perform_inspections (i : Inspector) : Bool :=
  i.is_active

/-! ## Inspection service (`application/services/inspection_service.py`) -/

/-- `InspectionService._normalize_license_plate`: strip, uppercase, then remove
every space and hyphen. -/
def InspectionService.normalize_license_plate (license_plate : List Char) :
    List Char :=
  removeAll '-' (removeAll ' ' (pyUpper (pyStrip license_plate)))

/-- `InspectionService.create_inspection` against an inspector repository
modelled as an id-keyed table: validates the plate and the inspector's
authorization, normalizes the plate and builds a DRAFT `Inspection` (whose
`__init__` can itself raise). The repository `save` returns the entity
unchanged in the in-memory implementation. -/
def InspectionService.create_inspection (inspectors : List (Nat × Inspector))
    (license_plate : List Char) (vehicle_type : VehicleType)
    (inspector_id : Nat) : Except String Inspection :=
  if pyStrip license_plate = [] then
    Except.error ("License plate cannot be empty")
  else
    match inspectors.lookup inspector_id with
    | none => Except.error (("Inspector with ID ") ++ toString inspector_id ++ (" not found"))
    | some inspector =>
      if !inspector.can_perform_inspections then
        Except.error (("Inspector ") ++ toString inspector_id
          ++ (" is not authorized to perform inspections"))
      else
        let normalized_plate := InspectionService.normalize_license_plate license_plate
        mkInspection normalized_plate vehicle_type inspector_id [] ("")
          InspectionStatus.draft

/-- `InspectionService.calculate_safety_result` as written in the source: it
builds a `Car` or `Motorcycle` for the vehicle type and then calls
`vehicle.calculate_safety_result(checkpoint_scores)`. No such method exists on
either class — the safety policy method is named `calculate_safety` — so in
Python the call raises `AttributeError` for every input that reaches it. The
uncaught attribute lookup failure is modelled as an error value. -/
def InspectionService.calculate_safety_result
    (checkpoint_scores : List CheckpointScore) (vehicle_type : VehicleType) :
    Except String SafetyResult :=
  match vehicle_type with
  | VehicleType.car =>
      Except.error ("AttributeError: Car object has no attribute calculate_safety_result")
  | VehicleType.motorcycle =>
      Except.error ("AttributeError: Motorcycle object has no attribute calculate_safety_result")

/-! ## Concrete inputs used in witnesses and counterexamples -/

/-- Nine maximal scores: every element is a valid `CheckpointScore`, but the
total, 90, exceeds the fixed `max_score` of 80. -/
def nineTens : List CheckpointScore :=
  List.replicate 9 ⟨CheckpointType.tires, 10, ("")⟩

/-- All 8 required checkpoints scored 8 each (total 64). -/
def eightAtEight : List CheckpointScore :=
  Inspection.required_checkpoints.map (fun cp => ⟨cp, 8, ("")⟩)

/-- A COMPLETED inspection whose score sheet is full: the state reached by
completing a fully scored draft. -/
def inspectionDone : Inspection :=
  ⟨['A', 'B', 'C', '1', '2', '3'], VehicleType.car, 1, eightAtEight, (""),
    InspectionStatus.completed⟩

/-- A DRAFT inspection whose score sheet is full. -/
def inspectionDraftFull : Inspection :=
  ⟨['A', 'B', 'C', '1', '2', '3'], VehicleType.car, 1, eightAtEight, (""),
    InspectionStatus.draft⟩

/-- A PENDING booking. -/
def bookingPending : Booking :=
  ⟨['A', 'B', 'C', '1', '2', '3'], ⟨10, 480⟩, 7, 0, BookingStatus.pending⟩

/-- A COMPLETED booking. -/
def bookingDone : Booking :=
  ⟨['A', 'B', 'C', '1', '2', '3'], ⟨10, 480⟩, 7, 0, BookingStatus.completed⟩

/-- A valid empty slot whose `is_available` field is `False`: the dataclass
accepts it, since `__post_init__` never relates `is_available` to the booking
counters. -/
def slotUnavailableEmpty : TimeSlot :=
  ⟨⟨0, 0⟩, 480, 540, false, 1, 0⟩

/-- A valid empty slot with `is_available = True`. -/
def slotAvailableEmpty : TimeSlot :=
  ⟨⟨0, 0⟩, 480, 540, true, 1, 0⟩

/-- A booking repository holding one PENDING booking at day 10, minute 480,
with a single base slot (capacity 1) at that same start time. -/
def repoOneBooking : InMemoryBookingRepository :=
  ⟨[bookingPending], [(10, [slotAvailableEmpty])]⟩

/-- A booking-service state over `repoOneBooking` with one known user. -/
def bookingStateOne : BookingServiceState :=
  ⟨repoOneBooking, [], [7], ⟨0, 0⟩, 1⟩

/-- An inspector table with one ACTIVE inspector under id 1. -/
def inspectorsActive : List (Nat × Inspector) :=
  [(1, ⟨InspectorStatus.active⟩)]

/-- The inspection created for plate "abc 123" (as characters), type CAR, by
the active inspector. -/
def inspAbc : Inspection :=
  ⟨['A', 'B', 'C', '1', '2', '3'], VehicleType.car, 1, [], (""),
    InspectionStatus.draft⟩

end VehicleScan

namespace VehicleScan

/-! ## Character-level lemmas about `Char.toUpper` -/

theorem toNat_toUpper (c : Char) :
    (Char.toUpper c).toNat =
      if 97 ≤ c.toNat ∧ c.toNat ≤ 122 then c.toNat - 32 else c.toNat := by
  unfold Char.toUpper
  split
  · rename_i h
    rw [if_pos h]
    rw [Char.ofNat, dif_pos (by left; omega)]
    simp [Char.ofNatAux, Char.toNat, UInt32.toNat]
  · rename_i h
    rw [if_neg h]

theorem char_toNat_injective {c d : Char} (h : c.toNat = d.toNat) : c = d := by
  have hc := Char.ofNat_toNat c
  rw [h, Char.ofNat_toNat] at hc
  exact hc.symm

theorem toUpper_idem (c : Char) :
    Char.toUpper (Char.toUpper c) = Char.toUpper c := by
  apply char_toNat_injective
  rw [toNat_toUpper, toNat_toUpper]
  split_ifs <;> omega

theorem toUpper_ne_space {c : Char} (h : c ≠ ' ') : Char.toUpper c ≠ ' ' := by
  intro hc
  have h2 : (Char.toUpper c).toNat = 32 := by rw [hc]; rfl
  rw [toNat_toUpper] at h2
  split at h2
  · omega
  · exact h (char_toNat_injective h2)

theorem toUpper_ne_hyphen {c : Char} (h : c ≠ '-') : Char.toUpper c ≠ '-' := by
  intro hc
  have h2 : (Char.toUpper c).toNat = 45 := by rw [hc]; rfl
  rw [toNat_toUpper] at h2
  split at h2
  · omega
  · exact h (char_toNat_injective h2)

/-! ## Safety-policy lemmas -/

theorem mkSafetyResult_ok (a : Bool) (t m : Int) (r : Bool) (o : String)
    (h0 : 0 ≤ t) (hm : 0 ≤ m) (htm : t ≤ m) :
    mkSafetyResult a t m r o = Except.ok ⟨a, t, m, r, o⟩ := by
  unfold mkSafetyResult
  rw [if_neg (by omega), if_neg (by omega), if_neg (by omega)]

theorem car_calculate_safety_ok (scores : List CheckpointScore)
    (h0 : 0 ≤ (scores.map (fun s => s.score)).sum)
    (h80 : (scores.map (fun s => s.score)).sum ≤ 80) :
    ∃ r, Car.calculate_safety scores = Except.ok r ∧
      r.total_score = (scores.map (fun s => s.score)).sum ∧
      r.max_score = 80 ∧
      r.is_safe = (decide (64 ≤ (scores.map (fun s => s.score)).sum) &&
        (scores.filter (fun s => decide (s.score < 5))).isEmpty) ∧
      r.requires_reinspection =
        (decide ((scores.map (fun s => s.score)).sum < 32) ||
          !(scores.filter (fun s => decide (s.score < 5))).isEmpty) := by
  have hmax : ((Car.get_required_checkpoints.length : Nat) : Int) * 10 = 80 := by decide
  simp only [Car.calculate_safety]
  rw [mkSafetyResult_ok _ _ _ _ _ h0 (by omega) (by omega)]
  exact ⟨_, rfl, rfl, hmax, rfl, rfl⟩

theorem motorcycle_calculate_safety_ok (scores : List CheckpointScore)
    (h0 : 0 ≤ (scores.map (fun s => s.score)).sum)
    (h80 : (scores.map (fun s => s.score)).sum ≤ 80) :
    ∃ r, Motorcycle.calculate_safety scores = Except.ok r ∧
      r.total_score = (scores.map (fun s => s.score)).sum ∧
      r.max_score = 80 ∧
      r.is_safe = (decide (64 ≤ (scores.map (fun s => s.score)).sum) &&
        (scores.filter (fun s => decide (s.score < 5))).isEmpty) ∧
      r.requires_reinspection =
        (decide ((scores.map (fun s => s.score)).sum < 32) ||
          !(scores.filter (fun s => decide (s.score < 5))).isEmpty) := by
  have hmax : ((Motorcycle.get_required_checkpoints.length : Nat) : Int) * 10 = 80 := by decide
  simp only [Motorcycle.calculate_safety]
  rw [mkSafetyResult_ok _ _ _ _ _ h0 (by omega) (by omega)]
  exact ⟨_, rfl, rfl, hmax, rfl, rfl⟩

theorem isEmpty_filter_lt5 (scores : List CheckpointScore) :
    (scores.filter (fun s => decide (s.score < 5))).isEmpty = true ↔
      ∀ s ∈ scores, 5 ≤ s.score := by
  rw [List.isEmpty_iff, List.filter_eq_nil_iff]
  constructor
  · intro h s hs
    have := h s hs
    simp at this
    omega
  · intro h s hs
    simp
    have := h s hs
    omega

theorem sum_scores_bounds (scores : List CheckpointScore)
    (hv : ∀ s ∈ scores, s.valid = true) :
    0 ≤ (scores.map (fun s => s.score)).sum ∧
      (scores.map (fun s => s.score)).sum ≤ 10 * scores.length := by
  induction scores with
  | nil => simp
  | cons a l ih =>
    have ha := hv a (by simp)
    have hl := ih (fun s hs => hv s (List.mem_cons_of_mem _ hs))
    simp only [CheckpointScore.valid, Bool.and_eq_true, decide_eq_true_eq] at ha
    simp only [List.map_cons, List.sum_cons, List.length_cons]
    push_cast
    omega

/-! ## Claim C1 — vehicle safety computation -/

/-- C1 (amended): for every list of valid `CheckpointScore` values whose
scores sum to at most 80, `Car.calculate_safety` and
`Motorcycle.calculate_safety` return a `SafetyResult` whose `total_score` is
the sum of the individual scores, whose `max_score` is 80, whose `is_safe` is
true iff the total is at least 64 and no score is below 5, and whose
`requires_reinspection` is true iff the total is below 32 or some score is
below 5. (The sum bound is forced: for longer lists the `SafetyResult`
constructor can raise, see the counterexample.) -/
theorem calculate_safety_spec (scores : List CheckpointScore)
    (hv : ∀ s ∈ scores, s.valid = true)
    (h80 : (scores.map (fun s => s.score)).sum ≤ 80) :
    ∃ rc rm,
      Car.calculate_safety scores = Except.ok rc ∧
      Motorcycle.calculate_safety scores = Except.ok rm ∧
      rc.total_score = (scores.map (fun s => s.score)).sum ∧
      rm.total_score = (scores.map (fun s => s.score)).sum ∧
      rc.max_score = 80 ∧ rm.max_score = 80 ∧
      (rc.is_safe = true ↔ (64 ≤ rc.total_score ∧ ∀ s ∈ scores, 5 ≤ s.score)) ∧
      rm.is_safe = rc.is_safe ∧
      (rc.requires_reinspection = true ↔
        (rc.total_score < 32 ∨ ∃ s ∈ scores, s.score < 5)) ∧
      rm.requires_reinspection = rc.requires_reinspection := by
  have h0 := (sum_scores_bounds scores hv).1
  obtain ⟨rc, hc, hct, hcm, hcs, hcr⟩ := car_calculate_safety_ok scores h0 h80
  obtain ⟨rm, hm, hmt, hmm, hms, hmr⟩ := motorcycle_calculate_safety_ok scores h0 h80
  refine ⟨rc, rm, hc, hm, hct, hmt, hcm, hmm, ?_, by rw [hcs, hms], ?_, by rw [hcr, hmr]⟩
  · rw [hcs, hct, Bool.and_eq_true, decide_eq_true_eq, isEmpty_filter_lt5]
  · rw [hcr, hct, Bool.or_eq_true, decide_eq_true_eq, Bool.not_eq_true']
    constructor
    · intro h
      rcases h with h | h
      · exact Or.inl h
      · right
        cases hf : scores.filter (fun s => decide (s.score < 5)) with
        | nil => rw [hf] at h; simp at h
        | cons a t =>
          have ha : a ∈ scores.filter (fun s => decide (s.score < 5)) := by
            rw [hf]; exact List.mem_cons_self a t
          have := List.mem_filter.mp ha
          exact ⟨a, this.1, by simpa using this.2⟩
    · intro h
      rcases h with h | h
      · exact Or.inl h
      · right
        obtain ⟨s, hs, hlt⟩ := h
        have hmem : s ∈ scores.filter (fun s => decide (s.score < 5)) :=
          List.mem_filter.mpr ⟨hs, by simpa using hlt⟩
        cases hf : scores.filter (fun s => decide (s.score < 5)) with
        | nil => rw [hf] at hmem; simp at hmem
        | cons a t => rfl

/-- C1 witness: the amended theorem applied to the concrete list scoring all
8 required checkpoints at 8 each. -/
theorem calculate_safety_spec_witness :
    Except.isOk (Car.calculate_safety eightAtEight) = true ∧
    Except.isOk (Motorcycle.calculate_safety eightAtEight) = true := by
  obtain ⟨rc, rm, hc, hm, _⟩ :=
    calculate_safety_spec eightAtEight (by decide) (by decide)
  rw [hc, hm]
  exact ⟨rfl, rfl⟩

/-- C1 counterexample: nine valid scores of 10 form a list of `CheckpointScore`
values on which `Car.calculate_safety` and `Motorcycle.calculate_safety` do not
return a `SafetyResult` at all — the `SafetyResult` constructor raises because
the total, 90, exceeds `max_score` 80. -/
theorem calculate_safety_overflow_counterexample :
    (∀ s ∈ nineTens, s.valid = true) ∧
    Car.calculate_safety nineTens =
      Except.error ("Total score cannot exceed maximum score") ∧
    Motorcycle.calculate_safety nineTens =
      Except.error ("Total score cannot exceed maximum score") := by
  exact ⟨by decide, rfl, rfl⟩

/-! ## Claim C10 — the 8-score bound on safe construction -/

/-- C10: for every list of at most 8 valid checkpoint scores the safety
calculation cannot fail, because the total is at most 10 per score and hence at
most 80 = `max_score`; and the bound is necessary — for nine scores of 10 the
construction inside `calculate_safety` raises because the total exceeds
`max_score`. -/
theorem calculate_safety_eight_score_bound :
    (∀ scores : List CheckpointScore, (∀ s ∈ scores, s.valid = true) →
      scores.length ≤ 8 →
      (scores.map (fun s => s.score)).sum ≤ 10 * scores.length ∧
      Except.isOk (Car.calculate_safety scores) = true ∧
      Except.isOk (Motorcycle.calculate_safety scores) = true) ∧
    Except.isOk (Car.calculate_safety nineTens) = false ∧
    Except.isOk (Motorcycle.calculate_safety nineTens) = false := by
  refine ⟨?_, by decide, by decide⟩
  intro scores hv hlen
  obtain ⟨h0, hsum⟩ := sum_scores_bounds scores hv
  have h80 : (scores.map (fun s => s.score)).sum ≤ 80 := by
    have : (10 : Int) * scores.length ≤ 80 := by
      have : (scores.length : Int) ≤ 8 := by exact_mod_cast hlen
      omega
    omega
  obtain ⟨rc, hc, _⟩ := car_calculate_safety_ok scores h0 h80
  obtain ⟨rm, hm, _⟩ := motorcycle_calculate_safety_ok scores h0 h80
  exact ⟨hsum, by rw [hc]; rfl, by rw [hm]; rfl⟩

/-- C10 witness: the bound applied to the concrete list of 8 scores of 8. -/
theorem calculate_safety_eight_score_bound_witness :
    (eightAtEight.map (fun s => s.score)).sum ≤ 10 * eightAtEight.length ∧
    Except.isOk (Car.calculate_safety eightAtEight) = true := by
  have h := calculate_safety_eight_score_bound.1 eightAtEight (by decide) (by decide)
  exact ⟨h.1, h.2.1⟩

/-! ## Inspection aggregate lemmas -/

theorem checkpoint_value_injective (a b : CheckpointType)
    (h : a.value = b.value) : a = b := by
  cases a <;> cases b <;> first | rfl | simp [CheckpointType.value] at h

theorem countP_type_le_one {scores : List CheckpointScore}
    (hnd : (scores.map (fun s => s.checkpoint_type)).Nodup) (cp : CheckpointType) :
    scores.countP (fun s => s.checkpoint_type == cp) ≤ 1 := by
  induction scores with
  | nil => simp
  | cons a l ih =>
    rw [List.map_cons, List.nodup_cons] at hnd
    rw [List.countP_cons]
    by_cases ha : a.checkpoint_type = cp
    · have hzero : l.countP (fun s => s.checkpoint_type == cp) = 0 := by
        rw [List.countP_eq_zero]
        intro s hs
        simp only [beq_iff_eq]
        intro hscp
        apply hnd.1
        rw [ha, ← hscp]
        exact List.mem_map_of_mem _ hs
      simp [hzero, ha]
    · simp [ha]
      exact ih hnd.2

theorem exists_type_iff_countP_one {scores : List CheckpointScore}
    (hnd : (scores.map (fun s => s.checkpoint_type)).Nodup) (cp : CheckpointType) :
    (∃ s ∈ scores, s.checkpoint_type = cp) ↔
      scores.countP (fun s => s.checkpoint_type == cp) = 1 := by
  constructor
  · intro h
    obtain ⟨s, hs, hst⟩ := h
    have hpos : 0 < scores.countP (fun s => s.checkpoint_type == cp) :=
      List.countP_pos_iff.mpr ⟨s, hs, by simp [hst]⟩
    have hle := countP_type_le_one hnd cp
    omega
  · intro h
    have hpos : 0 < scores.countP (fun s => s.checkpoint_type == cp) := by omega
    obtain ⟨s, hs, hp⟩ := List.countP_pos_iff.mp hpos
    exact ⟨s, hs, by simpa using hp⟩

theorem has_all_iff_counts (i : Inspection)
    (hnd : (i.checkpoint_scores.map (fun s => s.checkpoint_type)).Nodup) :
    i.has_all_required_checkpoints = true ↔
      ∀ cp ∈ Inspection.required_checkpoints,
        i.checkpoint_scores.countP (fun s => s.checkpoint_type == cp) = 1 := by
  rw [Inspection.has_all_required_checkpoints, List.all_eq_true]
  constructor
  · intro h cp hcp
    have := h cp hcp
    rw [List.any_eq_true] at this
    obtain ⟨s, hs, hp⟩ := this
    exact (exists_type_iff_countP_one hnd cp).mp ⟨s, hs, by simpa using hp⟩
  · intro h cp hcp
    rw [List.any_eq_true]
    obtain ⟨s, hs, hp⟩ := (exists_type_iff_countP_one hnd cp).mpr (h cp hcp)
    exact ⟨s, hs, by simp [hp]⟩

theorem mem_missing_checkpoints (i : Inspection) (cp : CheckpointType) :
    CheckpointType.value cp ∈ i.get_missing_checkpoints ↔
      cp ∈ Inspection.required_checkpoints ∧
        ∀ s ∈ i.checkpoint_scores, s.checkpoint_type ≠ cp := by
  rw [Inspection.get_missing_checkpoints, List.mem_map]
  constructor
  · intro h
    obtain ⟨cp', hcp', hval⟩ := h
    obtain rfl := checkpoint_value_injective cp' cp hval
    rw [List.mem_filter] at hcp'
    refine ⟨hcp'.1, ?_⟩
    intro s hs hcontra
    have := hcp'.2
    rw [Bool.not_eq_eq_eq_not, Bool.not_true, List.any_eq_false] at this
    exact absurd (by simp [hcontra]) (this s hs)
  · intro ⟨hreq, hnone⟩
    refine ⟨cp, List.mem_filter.mpr ⟨hreq, ?_⟩, rfl⟩
    rw [Bool.not_eq_eq_eq_not, Bool.not_true, List.any_eq_false]
    intro s hs
    simp only [beq_iff_eq]
    intro hcontra
    exact hnone s hs hcontra

/-! ## Claim C2 — completion requires exactly the 8 checkpoints -/

/-- C2 (amended): for every DRAFT inspection aggregate — one satisfying the
class invariant that no two scores share a checkpoint type —
`complete_inspection` succeeds iff every one of the 8 required checkpoint types
has exactly one score attached, and when it fails the error names exactly the
missing checkpoint types. (The DRAFT restriction is forced: on a COMPLETED
inspection with a full score sheet the call fails, see the counterexample.) -/
theorem complete_inspection_iff (i : Inspection) (obs : Option String)
    (hnd : (i.checkpoint_scores.map (fun s => s.checkpoint_type)).Nodup)
    (hdraft : i.status = InspectionStatus.draft) :
    (Except.isOk (i.complete_inspection obs) = true ↔
      ∀ cp ∈ Inspection.required_checkpoints,
        i.checkpoint_scores.countP (fun s => s.checkpoint_type == cp) = 1) ∧
    (Except.isOk (i.complete_inspection obs) = false →
      i.complete_inspection obs =
        Except.error (("Cannot complete inspection. Missing scores for: ")
          ++ String.intercalate (", ") i.get_missing_checkpoints) ∧
      ∀ cp : CheckpointType,
        (CheckpointType.value cp ∈ i.get_missing_checkpoints ↔
          cp ∈ Inspection.required_checkpoints ∧
            ∀ s ∈ i.checkpoint_scores, s.checkpoint_type ≠ cp)) := by
  have hb : (i.status == InspectionStatus.completed) = false := by
    rw [hdraft]; rfl
  cases hall : i.has_all_required_checkpoints with
  | true =>
    have hok : i.complete_inspection obs =
        Except.ok { i with
          observations := match obs with
            | some o => pyStripS o
            | none => i.observations,
          status := InspectionStatus.completed } := by
      rw [Inspection.complete_inspection.eq_def, hb, hall]
      rfl
    constructor
    · rw [hok]
      exact ⟨fun _ => (has_all_iff_counts i hnd).mp hall, fun _ => rfl⟩
    · rw [hok]
      intro hcontra
      simp [Except.isOk] at hcontra
  | false =>
    have herr : i.complete_inspection obs =
        Except.error (("Cannot complete inspection. Missing scores for: ")
          ++ String.intercalate (", ") i.get_missing_checkpoints) := by
      rw [Inspection.complete_inspection.eq_def, hb, hall]
      rfl
    constructor
    · rw [herr]
      constructor
      · intro h
        simp [Except.isOk] at h
      · intro hcounts
        have hcontra := (has_all_iff_counts i hnd).mpr hcounts
        rw [hall] at hcontra
        simp at hcontra
    · intro _
      exact ⟨herr, fun cp => mem_missing_checkpoints i cp⟩

/-- C2 witness: the amended theorem applied to a fully scored draft, whose
completion succeeds. -/
theorem complete_inspection_iff_witness :
    Except.isOk (inspectionDraftFull.complete_inspection none) = true := by
  have h := (complete_inspection_iff inspectionDraftFull none (by decide) (by decide)).1
  exact h.mpr (by decide)

/-- C2 counterexample: a COMPLETED inspection is an inspection aggregate on
which every one of the 8 required checkpoint types has exactly one score
attached, yet `complete_inspection` fails — so the claim's unrestricted
biconditional is false on the code. -/
theorem complete_inspection_completed_counterexample :
    (∀ cp ∈ Inspection.required_checkpoints,
      inspectionDone.checkpoint_scores.countP (fun s => s.checkpoint_type == cp) = 1) ∧
    inspectionDone.complete_inspection none =
      Except.error ("Inspection is already completed") := by
  exact ⟨by decide, rfl⟩

/-! ## Claim C3 — COMPLETED is terminal -/

/-- C3: once an inspection has status COMPLETED, every mutating operation
(`update_checkpoint_scores`, `add_checkpoint_score`, `update_observations`,
`complete_inspection`) fails with the completed-inspection error. Each guard
raises before any field is assigned, and a raised call returns no new
aggregate, so `checkpoint_scores`, `observations` and `status` are unchanged;
in particular no operation produces a successor state, making COMPLETED
terminal. -/
theorem completed_inspection_terminal (i : Inspection)
    (h : i.status = InspectionStatus.completed) :
    (∀ scores, i.update_checkpoint_scores scores =
      Except.error ("Cannot update scores for completed inspection")) ∧
    (∀ score, i.add_checkpoint_score score =
      Except.error ("Cannot update scores for completed inspection")) ∧
    (∀ obs, i.update_observations obs =
      Except.error ("Cannot update observations for completed inspection")) ∧
    (∀ obs, i.complete_inspection obs =
      Except.error ("Inspection is already completed")) := by
  have hb : (i.status == InspectionStatus.completed) = true := by
    rw [h]; rfl
  refine ⟨fun _ => ?_, fun _ => ?_, fun _ => ?_, fun _ => ?_⟩ <;>
    simp [Inspection.update_checkpoint_scores, Inspection.add_checkpoint_score,
      Inspection.update_observations, Inspection.complete_inspection, hb]

/-- C3 witness: the terminality theorem applied to a concrete completed
inspection and concrete arguments. -/
theorem completed_inspection_terminal_witness :
    inspectionDone.update_checkpoint_scores eightAtEight =
      Except.error ("Cannot update scores for completed inspection") ∧
    inspectionDone.add_checkpoint_score ⟨CheckpointType.tires, 10, ("")⟩ =
      Except.error ("Cannot update scores for completed inspection") ∧
    inspectionDone.update_observations ("checked") =
      Except.error ("Cannot update observations for completed inspection") ∧
    inspectionDone.complete_inspection none =
      Except.error ("Inspection is already completed") := by
  have h := completed_inspection_terminal inspectionDone rfl
  exact ⟨h.1 _, h.2.1 _, h.2.2.1 _, h.2.2.2 _⟩

/-! ## Claim C4 — booking state machine -/

/-- C4: for every booking, `confirm` succeeds iff the status is PENDING,
`complete` succeeds iff the status is CONFIRMED, and `cancel` succeeds iff the
status is neither COMPLETED nor CANCELLED. A failed transition raises before
the status assignment and yields no new booking, so the status is unchanged;
consequently every state reachable from COMPLETED or CANCELLED through the
transition relation is the state itself. -/
theorem booking_state_machine (b : Booking) :
    ((∃ b', b.confirm = Except.ok b') ↔ b.status = BookingStatus.pending) ∧
    ((∃ b', b.complete = Except.ok b') ↔ b.status = BookingStatus.confirmed) ∧
    ((∃ b', b.cancel = Except.ok b') ↔
      (b.status ≠ BookingStatus.completed ∧ b.status ≠ BookingStatus.cancelled)) ∧
    ((b.status = BookingStatus.completed ∨ b.status = BookingStatus.cancelled) →
      ∀ b', Relation.ReflTransGen BookingStep b b' → b' = b) := by
  refine ⟨?_, ?_, ?_, ?_⟩
  · cases hs : b.status <;> simp [Booking.confirm, hs]
  · cases hs : b.status <;> simp [Booking.complete, hs]
  · cases hs : b.status <;> simp [Booking.cancel, hs]
  · intro hterm b' hreach
    induction hreach with
    | refl => rfl
    | tail hmb hstep ih =>
      exfalso
      rw [ih] at hstep
      cases hstep with
      | confirm h =>
        rcases hterm with ht | ht <;> simp [Booking.confirm, ht] at h
      | cancel h =>
        rcases hterm with ht | ht <;> simp [Booking.cancel, ht] at h
      | complete h =>
        rcases hterm with ht | ht <;> simp [Booking.complete, ht] at h

/-- C4 witness: the state machine theorem applied to a concrete PENDING
booking (confirmation succeeds) and a concrete COMPLETED booking (only itself
is reachable). -/
theorem booking_state_machine_witness :
    (∃ b', bookingPending.confirm = Except.ok b') ∧ bookingDone = bookingDone :=
  ⟨(booking_state_machine bookingPending).1.mpr rfl,
   (booking_state_machine bookingDone).2.2.2 (Or.inl rfl) bookingDone
     Relation.ReflTransGen.refl⟩

/-! ## Claim C7 — with_booking / without_booking round trip -/

/-- C7 (amended): for every valid `TimeSlot` on which `with_booking()` is
permitted, applying `with_booking()` and then `without_booking()` yields a slot
whose `current_bookings` equals the original's and whose `is_available` is
unconditionally `True`; both fields are therefore restored exactly when the
original slot's `is_available` was `True`. (The unconditional claim is false:
`without_booking()` hard-codes `is_available=True`, see the counterexample.) -/
theorem with_without_booking_roundtrip (s : TimeSlot) (hwf : s.Wf)
    (hperm : s.is_fully_booked = false) :
    s.with_booking.bind TimeSlot.without_booking =
      Except.ok { s with is_available := true } ∧
    ({ s with is_available := true }).current_bookings = s.current_bookings ∧
    (s.is_available = true → { s with is_available := true } = s) := by
  obtain ⟨h1, h2, h3, h4⟩ := hwf
  have hlt : s.current_bookings < s.max_bookings := by
    simp only [TimeSlot.is_fully_booked, decide_eq_false_iff_not, not_le] at hperm
    exact hperm
  have hwb : s.with_booking = Except.ok ⟨s.date, s.start_time, s.end_time,
      decide (s.current_bookings + 1 < s.max_bookings), s.max_bookings,
      s.current_bookings + 1⟩ := by
    unfold TimeSlot.with_booking mkTimeSlot
    rw [if_neg (show ¬ (s.is_fully_booked = true) from by rw [hperm]; simp),
        if_neg (show ¬ (s.start_time ≥ s.end_time) from by omega),
        if_neg (show ¬ (s.current_bookings + 1 < 0) from by omega),
        if_neg (show ¬ (s.max_bookings < 1) from by omega),
        if_neg (show ¬ (s.current_bookings + 1 > s.max_bookings) from by omega)]
  have hwob : TimeSlot.without_booking ⟨s.date, s.start_time, s.end_time,
      decide (s.current_bookings + 1 < s.max_bookings), s.max_bookings,
      s.current_bookings + 1⟩ = Except.ok { s with is_available := true } := by
    unfold TimeSlot.without_booking mkTimeSlot
    rw [if_neg (show ¬ ((s.current_bookings + 1 == 0) = true) from by simp; omega),
        if_neg (show ¬ (s.start_time ≥ s.end_time) from by omega),
        if_neg (show ¬ (s.current_bookings + 1 - 1 < 0) from by omega),
        if_neg (show ¬ (s.max_bookings < 1) from by omega),
        if_neg (show ¬ (s.current_bookings + 1 - 1 > s.max_bookings) from by omega)]
    have he : s.current_bookings + 1 - 1 = s.current_bookings := by omega
    rw [he]
  refine ⟨?_, rfl, ?_⟩
  · rw [hwb]
    exact hwob
  · intro h
    cases s with
    | mk d st en av m c =>
      simp only at h
      rw [h]

/-- C7 witness: the round trip on a concrete valid available empty slot
restores the slot exactly. -/
theorem with_without_booking_roundtrip_witness :
    slotAvailableEmpty.with_booking.bind TimeSlot.without_booking =
      Except.ok slotAvailableEmpty := by
  have h := with_without_booking_roundtrip slotAvailableEmpty
    (by unfold TimeSlot.Wf; decide) rfl
  rw [h.1, h.2.2 rfl]

/-- C7 counterexample: a valid slot with `is_available = False` and zero
bookings permits `with_booking()`, but the round trip returns a slot with
`is_available = True` — `is_available` is not restored. -/
theorem with_without_booking_counterexample :
    slotUnavailableEmpty.Wf ∧
    slotUnavailableEmpty.is_fully_booked = false ∧
    slotUnavailableEmpty.with_booking.bind TimeSlot.without_booking =
      Except.ok ⟨⟨0, 0⟩, 480, 540, true, 1, 0⟩ ∧
    slotUnavailableEmpty.is_available = false := by
  exact ⟨by unfold TimeSlot.Wf; decide, rfl, rfl, rfl⟩

/-! ## Claim C8 — default slot generation -/

/-- C8: for every date, `generate_slots_for_date` with the default
configuration (start hour 8, end hour 17, 60-minute slots) yields exactly 9
slots, the first starting at 08:00 (minute 480), the last ending at 17:00
(minute 1020), and no slot ending after 17:00. The generator reads no state
and raises nothing in this configuration, so it has no side effects. -/
theorem generate_slots_default (d : Nat) :
    ∃ slots, TimeSlotGenerator.generate_slots_for_date 8 17 60 d = Except.ok slots ∧
      slots.length = 9 ∧
      slots.head?.map TimeSlot.start_time = some 480 ∧
      slots.getLast?.map TimeSlot.end_time = some 1020 ∧
      ∀ s ∈ slots, s.end_time ≤ 1020 := by
  refine ⟨_, rfl, rfl, rfl, rfl, ?_⟩
  intro s hs
  fin_cases hs <;> norm_num

/-! ## Claim C5 — taken slots reject new appointments -/

theorem update_slots_ok (repo : InMemoryBookingRepository) (td : Nat)
    (slots : List TimeSlot)
    (hok : ∀ s ∈ slots, s.start_time < s.end_time ∧ 1 ≤ s.max_bookings ∧
      (repo.booked_count td s.start_time : Int) ≤ s.max_bookings) :
    repo.update_slots td slots = Except.ok (slots.map (fun s =>
      ⟨s.date, s.start_time, s.end_time,
        decide ((repo.booked_count td s.start_time : Int) < s.max_bookings),
        s.max_bookings, (repo.booked_count td s.start_time : Int)⟩)) := by
  induction slots with
  | nil => rfl
  | cons a l ih =>
    obtain ⟨ha1, ha2, ha3⟩ := hok a (List.mem_cons_self a l)
    have hrest := ih (fun s hs => hok s (List.mem_cons_of_mem _ hs))
    have hslot : repo.update_slot td a = Except.ok ⟨a.date, a.start_time, a.end_time,
        decide ((repo.booked_count td a.start_time : Int) < a.max_bookings),
        a.max_bookings, (repo.booked_count td a.start_time : Int)⟩ := by
      unfold InMemoryBookingRepository.update_slot mkTimeSlot
      rw [if_neg (show ¬ (a.start_time ≥ a.end_time) from by omega),
          if_neg (show ¬ ((repo.booked_count td a.start_time : Int) < 0) from by omega),
          if_neg (show ¬ (a.max_bookings < 1) from by omega),
          if_neg (show ¬ ((repo.booked_count td a.start_time : Int) > a.max_bookings)
            from by omega)]
    simp only [InMemoryBookingRepository.update_slots, hslot, hrest, List.map_cons]

/-- C5: if a PENDING or CONFIRMED booking already exists for the exact
appointment date and start time, and every base slot at that start time has
capacity `max_bookings = 1` (so the capacity is reached), then
`request_appointment` for that same datetime — with a well-formed plate and a
known user — fails with the "not available" error. The error is raised before
any save, so no new booking is persisted. -/
theorem request_appointment_slot_taken
    (st : BookingServiceState) (plate : List Char) (dt : DateTime) (uid : Nat)
    (hval : LicensePlateValidator.validate plate = true)
    (huser : st.user_ids.contains uid = true)
    (base : List TimeSlot)
    (htable : st.booking_repository.time_slot_table.lookup dt.day = some base)
    (hwf : ∀ s ∈ base, s.start_time < s.end_time ∧ s.max_bookings = 1)
    (hcount : ∀ s ∈ base,
      (st.booking_repository.booked_count dt.day s.start_time : Int) ≤ s.max_bookings)
    (b : Booking) (hb : b ∈ st.booking_repository.bookings)
    (hdate : b.appointment_date = dt)
    (hstatus : b.status = BookingStatus.pending ∨ b.status = BookingStatus.confirmed) :
    BookingService.request_appointment st plate dt uid =
      Except.error ("Selected time slot is not available") := by
  have hpos : ∀ s ∈ base, s.start_time = dt.minutes →
      1 ≤ st.booking_repository.booked_count dt.day s.start_time := by
    intro s hs hstart
    have : 0 < st.booking_repository.booked_count dt.day s.start_time := by
      apply List.countP_pos_iff.mpr
      refine ⟨b, hb, ?_⟩
      rw [hdate, hstart]
      rcases hstatus with h | h <;> simp [h]
    omega
  have hfind : st.booking_repository.find_available_slots dt.day =
      Except.ok (base.map (fun s =>
        ⟨s.date, s.start_time, s.end_time,
          decide ((st.booking_repository.booked_count dt.day s.start_time : Int) <
            s.max_bookings),
          s.max_bookings,
          (st.booking_repository.booked_count dt.day s.start_time : Int)⟩)) := by
    unfold InMemoryBookingRepository.find_available_slots
    rw [htable]
    exact update_slots_ok st.booking_repository dt.day base
      (fun s hs => ⟨(hwf s hs).1, by have := (hwf s hs).2; omega, hcount s hs⟩)
  have hany : (base.map (fun s =>
      (⟨s.date, s.start_time, s.end_time,
        decide ((st.booking_repository.booked_count dt.day s.start_time : Int) <
          s.max_bookings),
        s.max_bookings,
        (st.booking_repository.booked_count dt.day s.start_time : Int)⟩ : TimeSlot))).any
        (fun slot => slot.start_time == dt.minutes && slot.is_available) = false := by
    simp only [List.any_map]
    rw [List.any_eq_false]
    intro s hs
    simp only [Function.comp]
    by_cases hstart : s.start_time = dt.minutes
    · have h1 := hpos s hs hstart
      have h2 := (hwf s hs).2
      rw [hstart] at h1
      simp [hstart, h2]
      omega
    · simp [hstart]
  have havail : st.booking_repository.is_slot_available dt = Except.ok false := by
    unfold InMemoryBookingRepository.is_slot_available
    rw [hfind]
    exact congrArg Except.ok hany
  unfold BookingService.request_appointment
  simp only [hval, huser, havail, Bool.not_true, Bool.false_eq_true, if_false,
    Bool.not_false, if_true]

/-- C5 witness: a second request for day 10, minute 480 — already taken by a
PENDING booking in a capacity-1 slot — is rejected and nothing is saved. -/
theorem request_appointment_slot_taken_witness :
    BookingService.request_appointment bookingStateOne
      ['A', 'B', 'C', '1', '2', '3'] ⟨10, 480⟩ 7 =
      Except.error ("Selected time slot is not available") :=
  request_appointment_slot_taken bookingStateOne ['A', 'B', 'C', '1', '2', '3']
    ⟨10, 480⟩ 7 (by decide) (by decide) [slotAvailableEmpty] rfl (by decide)
    (by decide) bookingPending (by decide) rfl (Or.inl rfl)

/-! ## Character and strip lemmas for license-plate normalization -/

theorem isWhitespace_letterlike_false (d : Char)
    (hd : (65 ≤ d.toNat ∧ d.toNat ≤ 90) ∨ (97 ≤ d.toNat ∧ d.toNat ≤ 122)) :
    d.isWhitespace = false := by
  have h32 : d.toNat ≠ 32 := by omega
  have h9 : d.toNat ≠ 9 := by omega
  have h13 : d.toNat ≠ 13 := by omega
  have h10 : d.toNat ≠ 10 := by omega
  unfold Char.isWhitespace
  simp only [Bool.or_eq_false_iff, decide_eq_false_iff_not]
  refine ⟨⟨⟨?_, ?_⟩, ?_⟩, ?_⟩ <;> intro he
  · exact h32 (by rw [he]; rfl)
  · exact h9 (by rw [he]; rfl)
  · exact h13 (by rw [he]; rfl)
  · exact h10 (by rw [he]; rfl)

theorem isWhitespace_toUpper (c : Char) :
    (Char.toUpper c).isWhitespace = c.isWhitespace := by
  by_cases h : 97 ≤ c.toNat ∧ c.toNat ≤ 122
  · have h1 : (Char.toUpper c).toNat = c.toNat - 32 := by
      rw [toNat_toUpper, if_pos h]
    rw [isWhitespace_letterlike_false _ (Or.inl (by omega)),
      isWhitespace_letterlike_false _ (Or.inr h)]
  · have h1 : Char.toUpper c = c :=
      char_toNat_injective (by rw [toNat_toUpper, if_neg h])
    rw [h1]

theorem getLast?_dropWhile_of_ne_nil {α : Type} (p : α → Bool) (l : List α)
    (h : l.dropWhile p ≠ []) : (l.dropWhile p).getLast? = l.getLast? := by
  induction l with
  | nil => simp at h
  | cons a t ih =>
    by_cases hp : p a
    · rw [List.dropWhile_cons_of_pos hp] at h ⊢
      have ht : t ≠ [] := by
        intro he
        rw [he] at h
        simp at h
      rw [ih h]
      cases t with
      | nil => exact absurd rfl ht
      | cons b t' => rw [List.getLast?_cons_cons]
    · rw [List.dropWhile_cons_of_neg hp]

theorem pyStrip_head?_not_white {l : List Char} {c : Char}
    (h : (pyStrip l).head? = some c) : c.isWhitespace = false := by
  unfold pyStrip at h
  rw [List.head?_reverse] at h
  have hne : (l.dropWhile Char.isWhitespace).reverse.dropWhile Char.isWhitespace ≠ [] := by
    intro he
    rw [he] at h
    simp at h
  rw [getLast?_dropWhile_of_ne_nil _ _ hne, List.getLast?_reverse] at h
  have hw := List.head?_dropWhile_not Char.isWhitespace l
  rw [h] at hw
  exact hw

theorem pyStrip_getLast?_not_white {l : List Char} {c : Char}
    (h : (pyStrip l).getLast? = some c) : c.isWhitespace = false := by
  unfold pyStrip at h
  rw [List.getLast?_reverse] at h
  have hw := List.head?_dropWhile_not Char.isWhitespace
    ((l.dropWhile Char.isWhitespace).reverse)
  rw [h] at hw
  exact hw

theorem mem_of_mem_pyStrip {c : Char} {l : List Char} (h : c ∈ pyStrip l) :
    c ∈ l := by
  unfold pyStrip at h
  rw [List.mem_reverse] at h
  have h1 := List.dropWhile_subset Char.isWhitespace h
  rw [List.mem_reverse] at h1
  exact List.dropWhile_subset Char.isWhitespace h1

theorem not_mem_removeAll (c : Char) (l : List Char) : c ∉ removeAll c l := by
  simp [removeAll]

theorem mem_of_mem_removeAll {a c : Char} {l : List Char}
    (h : a ∈ removeAll c l) : a ∈ l :=
  (List.mem_filter.mp h).1

/-! ## Claim C9 — license-plate normalization on creation -/

/-- C9: every inspection persisted by `create_inspection` stores the license
plate in normalized form — the plate is exactly the strip-then-uppercase image
of the space-and-hyphen-free normalized input, hence contains no space and no
hyphen, is fixed under uppercasing, and neither starts nor ends with
whitespace — and the inspection's status is DRAFT. -/
theorem create_inspection_normalizes (inspectors : List (Nat × Inspector))
    (plate : List Char) (vt : VehicleType) (iid : Nat) (insp : Inspection)
    (h : InspectionService.create_inspection inspectors plate vt iid =
      Except.ok insp) :
    insp.license_plate =
      pyUpper (pyStrip (InspectionService.normalize_license_plate plate)) ∧
    (' ') ∉ insp.license_plate ∧
    ('-') ∉ insp.license_plate ∧
    (∀ c ∈ insp.license_plate, Char.toUpper c = c) ∧
    (∀ c, insp.license_plate.head? = some c → c.isWhitespace = false) ∧
    (∀ c, insp.license_plate.getLast? = some c → c.isWhitespace = false) ∧
    insp.status = InspectionStatus.draft ∧
    insp.vehicle_type = vt := by
  unfold InspectionService.create_inspection at h
  split at h
  · simp at h
  · split at h
    · simp at h
    · rename_i inspector _
      split at h
      · simp at h
      · dsimp only at h
        unfold mkInspection at h
        split at h
        · simp at h
        · split at h
          · simp at h
          · rw [Except.ok.injEq] at h
            subst h
            constructor
            · rfl
            constructor
            · intro hmem
              rw [pyUpper, List.mem_map] at hmem
              obtain ⟨c, hc, hcu⟩ := hmem
              by_cases he : c = ' '
              · subst he
                have := mem_of_mem_pyStrip hc
                have h1 := mem_of_mem_removeAll this
                exact not_mem_removeAll (' ') _ h1
              · exact toUpper_ne_space he hcu
            constructor
            · intro hmem
              rw [pyUpper, List.mem_map] at hmem
              obtain ⟨c, hc, hcu⟩ := hmem
              by_cases he : c = '-'
              · subst he
                exact not_mem_removeAll ('-') _ (mem_of_mem_pyStrip hc)
              · exact toUpper_ne_hyphen he hcu
            constructor
            · intro c hc
              rw [pyUpper, List.mem_map] at hc
              obtain ⟨c', _, hcu⟩ := hc
              rw [← hcu, toUpper_idem]
            constructor
            · intro c hc
              rw [pyUpper, List.head?_map] at hc
              cases hh : (pyStrip (InspectionService.normalize_license_plate plate)).head? with
              | none => rw [hh] at hc; simp at hc
              | some c' =>
                rw [hh, Option.map_some'] at hc
                have hcc : Char.toUpper c' = c := Option.some.inj hc
                rw [← hcc, isWhitespace_toUpper]
                exact pyStrip_head?_not_white hh
            constructor
            · intro c hc
              rw [pyUpper, List.getLast?_map] at hc
              cases hh : (pyStrip (InspectionService.normalize_license_plate plate)).getLast? with
              | none => rw [hh] at hc; simp at hc
              | some c' =>
                rw [hh, Option.map_some'] at hc
                have hcc : Char.toUpper c' = c := Option.some.inj hc
                rw [← hcc, isWhitespace_toUpper]
                exact pyStrip_getLast?_not_white hh
            exact ⟨rfl, rfl⟩

/-- C9 witness: creating an inspection for plate "abc 123", type CAR, by the
ACTIVE inspector stores license plate "ABC123" with status DRAFT. -/
theorem create_inspection_normalizes_witness :
    InspectionService.create_inspection inspectorsActive
      ['a', 'b', 'c', ' ', '1', '2', '3'] VehicleType.car 1 =
      Except.ok inspAbc ∧
    inspAbc.license_plate = ['A', 'B', 'C', '1', '2', '3'] ∧
    inspAbc.status = InspectionStatus.draft := by
  have hcreate : InspectionService.create_inspection inspectorsActive
      ['a', 'b', 'c', ' ', '1', '2', '3'] VehicleType.car 1 =
      Except.ok inspAbc := by decide
  have h := create_inspection_normalizes inspectorsActive
    ['a', 'b', 'c', ' ', '1', '2', '3'] VehicleType.car 1 inspAbc hcreate
  exact ⟨hcreate, rfl, h.2.2.2.2.2.2.1⟩

/-! ## Claim C6 — the service-level safety preview -/

/-- C6: the claim says `InspectionService.calculate_safety_result` returns the
SafetyResult computed by the vehicle type's safety policy, and that is what the
method's own docstring promises; but the source calls
`vehicle.calculate_safety_result(checkpoint_scores)`, a method that exists on
neither `Car` nor `Motorcycle` (the policy method is `calculate_safety`), so
the call raises `AttributeError` for every input and never returns a result.
The safety policy itself does return a result on the same inputs. -/
theorem calculate_safety_result_attribute_error :
    (∀ (checkpoint_scores : List CheckpointScore) (vehicle_type : VehicleType),
      Except.isOk (InspectionService.calculate_safety_result checkpoint_scores
        vehicle_type) = false) ∧
    Except.isOk (Car.calculate_safety eightAtEight) = true := by
  constructor
  · intro checkpoint_scores vehicle_type
    cases vehicle_type <;> rfl
  · decide

end VehicleScan
